import Mathlib

/-!
Shallow embedding of the fixed-window rate-limiting middleware in
`src/server/middleware/cache.ts` (the `MemoryStore` class, `createRateLimiter`,
and the four preconfigured limiters), together with theorems checking the
natural-language specification of that subsystem.

Modelling conventions:
- Timestamps (`Date.now()`, `resetTime`, `windowMs`) are `Nat` milliseconds.
- Counters are `Int` (JavaScript numbers can in principle go negative under
  `record.count--`, so we do not bake non-negativity into the type).
- The store (a plain JS object keyed by strings) is a partial map
  `String → Option RateLimitRecord`.
- The middleware is sequential: one request is modelled as an `admit` phase
  (increment + header computation + possible early 429 return) followed, on
  admission, by the handler producing a status and a `settle` phase (the
  skip-accounting decrements after `await next()`).
- JavaScript truthiness of `string | undefined` values (`forwarded ? … : …`,
  `x || 'unknown'`): `undefined` and `""` are falsy, every other string truthy.
-/

/-- One entry of the in-memory store: `{ count, resetTime }`. -/
structure RateLimitRecord where
  count : Int
  resetTime : Nat
deriving DecidableEq

/-- The `MemoryStore`'s backing object: a partial map from keys to records. -/
abbrev Store := String → Option RateLimitRecord

/-- The store with no entries (initial state of `MemoryStore`). -/
def emptyStore : Store := fun _ => none

/-- `this.store[key] = value` (JS object assignment). -/
def setKey (s : Store) (key : String) (v : RateLimitRecord) : Store :=
  fun k => if k = key then some v else s k

/-- `MemoryStore.get(key)`: returns the record for `key`, but first deletes it
(and returns `undefined`) when `Date.now() > record.resetTime`.  Returns the
looked-up value together with the possibly-updated store. -/
def storeGetD (s : Store) (key : String) (now : Nat) : Option RateLimitRecord × Store :=
  match s key with
  | none => (none, s)
  | some record =>
    if now > record.resetTime then
      (none, fun k => if k = key then none else s k)
    else
      (some record, s)

/-- `MemoryStore.increment(key, windowMs)`: on a missing (or just-expired and
deleted) record create `{ count: 1, resetTime: now + windowMs }`, otherwise
bump `count` by one; store and return the record. -/
def increment (s : Store) (key : String) (windowMs now : Nat) :
    RateLimitRecord × Store :=
  let g := storeGetD s key now
  match g.1 with
  | none =>
    let record : RateLimitRecord := { count := 1, resetTime := now + windowMs }
    (record, setKey g.2 key record)
  | some existing =>
    let record : RateLimitRecord :=
      { count := existing.count + 1, resetTime := existing.resetTime }
    (record, setKey g.2 key record)

/-- `MemoryStore.cleanup()`: delete every entry with `now > record.resetTime`. -/
def cleanup (s : Store) (now : Nat) : Store :=
  fun k =>
    match s k with
    | some record => if now > record.resetTime then none else some record
    | none => none

/-- JS truthiness of a `string | undefined` value: `undefined` and the empty
string are falsy. -/
def jsTruthy : Option String → Bool
  | none => false
  | some "" => false
  | some _ => true

/-- JS `x || d` for `x : string | undefined`: `d` when `x` is falsy. -/
def jsOr (x : Option String) (d : String) : String :=
  if jsTruthy x then x.getD "" else d

/-- The request data the limiter reads: the `x-forwarded-for` and `x-real-ip`
headers and the `userId` context value set by auth middleware. -/
structure RequestCtx where
  xForwardedFor : Option String
  xRealIp : Option String
  userId : Option String

/-- The client-address computation shared by both key generators:
`forwarded ? forwarded.split(',')[0].trim() : (header('x-real-ip') || 'unknown')`
(the source repeats this expression verbatim in the default and the upload key
generators). -/
def clientIp (c : RequestCtx) : String :=
  if jsTruthy c.xForwardedFor then
    (((c.xForwardedFor.getD "").splitOn ",").headD "").trim
  else
    jsOr c.xRealIp "unknown"

/-- The default `keyGenerator` of `createRateLimiter`:
`` `rate_limit:${ip}` ``. -/
def defaultKeyGenerator (c : RequestCtx) : String :=
  "rate_limit:" ++ clientIp c

/-- The upload limiter's `keyGenerator`:
`` `upload_limit:${ip}:${userId || 'anonymous'}` ``. -/
def uploadKeyGenerator (c : RequestCtx) : String :=
  "upload_limit:" ++ clientIp c ++ ":" ++ jsOr c.userId "anonymous"

/-- `RateLimitOptions` after `createRateLimiter` has filled in the defaults
(`message`, `keyGenerator`, and the two skip flags). -/
structure RateLimitOptions where
  windowMs : Nat
  maxRequests : Int
  message : String
  keyGenerator : RequestCtx → String
  skipSuccessfulRequests : Bool
  skipFailedRequests : Bool

/-- The JSON body returned with a 429 response. -/
structure RejectionBody where
  error : String
  message : String
  code : String
  retryAfter : Int
  limit : Int
  window : Nat
deriving DecidableEq

/-- `Math.ceil(x / 1000)` on an integer number of milliseconds. -/
def ceilDiv1000 (x : Int) : Int := (x + 999).fdiv 1000

/-- The skip-accounting block executed after `await next()`:
`record` is the object captured at increment time; each matching skip flag
decrements its count and writes it back with `store.set`. -/
def settle (opts : RateLimitOptions) (key : String) (record : RateLimitRecord)
    (status : Nat) (s : Store) : Store :=
  let p1 :=
    if opts.skipSuccessfulRequests = true ∧ 200 ≤ status ∧ status < 400 then
      let r := { record with count := record.count - 1 }
      (r, setKey s key r)
    else
      (record, s)
  if opts.skipFailedRequests = true ∧ 400 ≤ status then
    let r := { p1.1 with count := p1.1.count - 1 }
    setKey p1.2 key r
  else
    p1.2

/-- The observable effect of one middleware invocation: the incremented record,
the computed header values (both as numbers and as the header-name/value list
the code sets), the admission decision, the early-return status and JSON body
on rejection, and the final store state. -/
structure MwResponse where
  record : RateLimitRecord
  admitted : Bool
  limitHdr : Int
  remainingHdr : Int
  resetHdr : Nat
  windowHdr : Nat
  retryAfterHdr : Option Int
  headerList : List (String × String)
  statusOut : Option Nat
  body : Option RejectionBody
  finalStore : Store

/-- One sequential run of the middleware returned by `createRateLimiter`:
generate the key, increment, set the four rate-limit headers, reject with 429
when `record.count > maxRequests` (before the handler runs), otherwise run the
handler (producing `handlerStatus`) and apply the skip accounting. -/
def runMiddleware (opts : RateLimitOptions) (c : RequestCtx) (now : Nat)
    (handlerStatus : Nat) (s : Store) : MwResponse :=
  let key := opts.keyGenerator c
  let res := increment s key opts.windowMs now
  let record := res.1
  let s1 := res.2
  let resetTime := (record.resetTime + 999) / 1000
  let remaining := max 0 (opts.maxRequests - record.count)
  let baseHeaders : List (String × String) :=
    [("X-RateLimit-Limit", toString opts.maxRequests),
     ("X-RateLimit-Remaining", toString remaining),
     ("X-RateLimit-Reset", toString resetTime),
     ("X-RateLimit-Window", toString opts.windowMs)]
  if record.count > opts.maxRequests then
    let retryAfter := ceilDiv1000 ((record.resetTime : Int) - (now : Int))
    { record := record
      admitted := false
      limitHdr := opts.maxRequests
      remainingHdr := remaining
      resetHdr := resetTime
      windowHdr := opts.windowMs
      retryAfterHdr := some retryAfter
      headerList := baseHeaders ++ [("Retry-After", toString retryAfter)]
      statusOut := some 429
      body := some
        { error := "Too Many Requests"
          message := opts.message
          code := "RATE_LIMIT_EXCEEDED"
          retryAfter := retryAfter
          limit := opts.maxRequests
          window := opts.windowMs }
      finalStore := s1 }
  else
    { record := record
      admitted := true
      limitHdr := opts.maxRequests
      remainingHdr := remaining
      resetHdr := resetTime
      windowHdr := opts.windowMs
      retryAfterHdr := none
      headerList := baseHeaders
      statusOut := none
      body := none
      finalStore := settle opts key record handlerStatus s1 }

/-- `rateLimiter`: 100 requests per 15 minutes, default key generator. -/
def rateLimiterOptions : RateLimitOptions :=
  { windowMs := 15 * 60 * 1000
    maxRequests := 100
    message := "Too many requests from this IP, please try again later."
    keyGenerator := defaultKeyGenerator
    skipSuccessfulRequests := false
    skipFailedRequests := false }

/-- `strictRateLimiter`: 5 requests per 15 minutes, successful requests not
counted. -/
def strictRateLimiterOptions : RateLimitOptions :=
  { windowMs := 15 * 60 * 1000
    maxRequests := 5
    message := "Too many authentication attempts, please try again later."
    keyGenerator := defaultKeyGenerator
    skipSuccessfulRequests := true
    skipFailedRequests := false }

/-- `readRateLimiter`: 1000 requests per hour, default key generator. -/
def readRateLimiterOptions : RateLimitOptions :=
  { windowMs := 60 * 60 * 1000
    maxRequests := 1000
    message := "Too many requests, please slow down."
    keyGenerator := defaultKeyGenerator
    skipSuccessfulRequests := false
    skipFailedRequests := false }

/-- `uploadRateLimiter`: 10 uploads per hour, key includes the user id. -/
def uploadRateLimiterOptions : RateLimitOptions :=
  { windowMs := 60 * 60 * 1000
    maxRequests := 10
    message := "Upload limit exceeded, please try again later."
    keyGenerator := uploadKeyGenerator
    skipSuccessfulRequests := false
    skipFailedRequests := false }

/-- Run a list of `(now, handlerStatus)` requests in sequence, threading the
store. -/
def runRounds (opts : RateLimitOptions) (c : RequestCtx) :
    List (Nat × Nat) → Store → Store
  | [], s => s
  | (now, st) :: rest, s =>
    runRounds opts c rest (runMiddleware opts c now st s).finalStore

/-- `true` when every request in the sequence is admitted. -/
def roundsAdmitted (opts : RateLimitOptions) (c : RequestCtx) :
    List (Nat × Nat) → Store → Bool
  | [], _ => true
  | (now, st) :: rest, s =>
    let resp := runMiddleware opts c now st s
    resp.admitted && roundsAdmitted opts c rest resp.finalStore

lemma setKey_same (s : Store) (key : String) (v : RateLimitRecord) :
    setKey s key v key = some v := by
  simp [setKey]

lemma setKey_other (s : Store) (key k : String) (v : RateLimitRecord)
    (h : k ≠ key) : setKey s key v k = s k := by
  simp [setKey, h]

lemma storeGetD_of_none {s : Store} {key : String} {now : Nat}
    (h : s key = none) : storeGetD s key now = (none, s) := by
  simp [storeGetD, h]

lemma storeGetD_of_live {s : Store} {key : String} {now : Nat}
    {r : RateLimitRecord} (h : s key = some r) (hl : now ≤ r.resetTime) :
    storeGetD s key now = (some r, s) := by
  simp [storeGetD, h, Nat.not_lt.mpr hl]

lemma storeGetD_of_expired {s : Store} {key : String} {now : Nat}
    {r : RateLimitRecord} (h : s key = some r) (he : r.resetTime < now) :
    storeGetD s key now = (none, fun k => if k = key then none else s k) := by
  simp [storeGetD, h, he]

lemma increment_of_none {s : Store} {key : String} {w now : Nat}
    (h : s key = none) :
    increment s key w now =
      ({ count := 1, resetTime := now + w },
       setKey s key { count := 1, resetTime := now + w }) := by
  simp [increment, storeGetD_of_none h]

lemma increment_of_live {s : Store} {key : String} {w now : Nat}
    {r : RateLimitRecord} (h : s key = some r) (hl : now ≤ r.resetTime) :
    increment s key w now =
      ({ count := r.count + 1, resetTime := r.resetTime },
       setKey s key { count := r.count + 1, resetTime := r.resetTime }) := by
  simp [increment, storeGetD_of_live h hl]

lemma increment_of_expired {s : Store} {key : String} {w now : Nat}
    {r : RateLimitRecord} (h : s key = some r) (he : r.resetTime < now) :
    increment s key w now =
      ({ count := 1, resetTime := now + w },
       setKey s key { count := 1, resetTime := now + w }) := by
  have hg := storeGetD_of_expired h he
  simp only [increment, hg]
  refine Prod.ext rfl ?_
  funext k
  by_cases hk : k = key <;> simp [setKey, hk]

lemma settle_no_flags {opts : RateLimitOptions} {key : String}
    {r : RateLimitRecord} {st : Nat} {s : Store}
    (h1 : opts.skipSuccessfulRequests = false)
    (h2 : opts.skipFailedRequests = false) :
    settle opts key r st s = s := by
  simp [settle, h1, h2]

lemma settle_success {opts : RateLimitOptions} {key : String}
    {r : RateLimitRecord} {st : Nat} {s : Store}
    (h1 : opts.skipSuccessfulRequests = true)
    (hlo : 200 ≤ st) (hhi : st < 400) :
    settle opts key r st s =
      setKey s key { count := r.count - 1, resetTime := r.resetTime } := by
  have hnf : ¬ (400 ≤ st) := by omega
  simp [settle, h1, hlo, hhi, hnf]

lemma settle_failure {opts : RateLimitOptions} {key : String}
    {r : RateLimitRecord} {st : Nat} {s : Store}
    (h2 : opts.skipFailedRequests = true) (hge : 400 ≤ st) :
    settle opts key r st s =
      setKey s key { count := r.count - 1, resetTime := r.resetTime } := by
  have hns : ¬ (st < 400) := by omega
  simp [settle, h2, hns]

lemma settle_cases (opts : RateLimitOptions) (key : String)
    (r : RateLimitRecord) (st : Nat) (s : Store) :
    settle opts key r st s = s ∨
    settle opts key r st s =
      setKey s key { count := r.count - 1, resetTime := r.resetTime } := by
  by_cases hs : opts.skipSuccessfulRequests = true ∧ 200 ≤ st ∧ st < 400
  · exact Or.inr (settle_success hs.1 hs.2.1 hs.2.2)
  · by_cases hf : opts.skipFailedRequests = true ∧ 400 ≤ st
    · exact Or.inr (settle_failure hf.1 hf.2)
    · left
      simp [settle, hs, hf]

lemma runMiddleware_spec (opts : RateLimitOptions) (c : RequestCtx)
    (now st : Nat) (s : Store) {r : RateLimitRecord} {s1 : Store}
    (hr : increment s (opts.keyGenerator c) opts.windowMs now = (r, s1)) :
    (runMiddleware opts c now st s).record = r ∧
    ((runMiddleware opts c now st s).admitted = true ↔
      r.count ≤ opts.maxRequests) ∧
    (runMiddleware opts c now st s).limitHdr = opts.maxRequests ∧
    (runMiddleware opts c now st s).remainingHdr =
      max 0 (opts.maxRequests - r.count) ∧
    (runMiddleware opts c now st s).resetHdr = (r.resetTime + 999) / 1000 ∧
    (runMiddleware opts c now st s).windowHdr = opts.windowMs ∧
    (opts.maxRequests < r.count →
      (runMiddleware opts c now st s).finalStore = s1 ∧
      (runMiddleware opts c now st s).statusOut = some 429 ∧
      (runMiddleware opts c now st s).retryAfterHdr =
        some (ceilDiv1000 ((r.resetTime : Int) - (now : Int))) ∧
      (runMiddleware opts c now st s).body = some
        { error := "Too Many Requests"
          message := opts.message
          code := "RATE_LIMIT_EXCEEDED"
          retryAfter := ceilDiv1000 ((r.resetTime : Int) - (now : Int))
          limit := opts.maxRequests
          window := opts.windowMs }) ∧
    (r.count ≤ opts.maxRequests →
      (runMiddleware opts c now st s).finalStore =
        settle opts (opts.keyGenerator c) r st s1 ∧
      (runMiddleware opts c now st s).statusOut = none ∧
      (runMiddleware opts c now st s).retryAfterHdr = none ∧
      (runMiddleware opts c now st s).body = none) := by
  by_cases h : opts.maxRequests < r.count
  · simp [runMiddleware, hr, h, Int.not_le.mpr h]
  · simp [runMiddleware, hr, h, Int.not_lt.mp h]

lemma runMiddleware_headerList (opts : RateLimitOptions) (c : RequestCtx)
    (now st : Nat) (s : Store) {r : RateLimitRecord} {s1 : Store}
    (hr : increment s (opts.keyGenerator c) opts.windowMs now = (r, s1)) :
    (runMiddleware opts c now st s).headerList =
      [("X-RateLimit-Limit", toString opts.maxRequests),
       ("X-RateLimit-Remaining", toString (max 0 (opts.maxRequests - r.count))),
       ("X-RateLimit-Reset", toString ((r.resetTime + 999) / 1000)),
       ("X-RateLimit-Window", toString opts.windowMs)] ++
      (if opts.maxRequests < r.count then
        [("Retry-After",
          toString (ceilDiv1000 ((r.resetTime : Int) - (now : Int))))]
       else []) := by
  by_cases h : opts.maxRequests < r.count
  · simp [runMiddleware, hr, h]
  · simp [runMiddleware, hr, h, Int.not_lt.mp h]

lemma runRounds_cons (opts : RateLimitOptions) (c : RequestCtx)
    (now st : Nat) (rest : List (Nat × Nat)) (s : Store) :
    runRounds opts c ((now, st) :: rest) s =
      runRounds opts c rest (runMiddleware opts c now st s).finalStore := rfl

lemma roundsAdmitted_cons (opts : RateLimitOptions) (c : RequestCtx)
    (now st : Nat) (rest : List (Nat × Nat)) (s : Store) :
    roundsAdmitted opts c ((now, st) :: rest) s =
      ((runMiddleware opts c now st s).admitted &&
        roundsAdmitted opts c rest (runMiddleware opts c now st s).finalStore) := rfl

lemma runRounds_counts (opts : RateLimitOptions) (c : RequestCtx)
    (h1 : opts.skipSuccessfulRequests = false)
    (h2 : opts.skipFailedRequests = false) :
    ∀ (ts : List (Nat × Nat)) (s : Store) (cnt : Int) (E : Nat),
      s (opts.keyGenerator c) = some { count := cnt, resetTime := E } →
      (∀ t ∈ ts, t.1 ≤ E) →
      runRounds opts c ts s (opts.keyGenerator c) =
        some { count := cnt + ts.length, resetTime := E } := by
  intro ts
  induction ts with
  | nil =>
    intro s cnt E hs _
    simpa [runRounds] using hs
  | cons head tail ih =>
    intro s cnt E hs hts
    obtain ⟨now, st⟩ := head
    have hnow : now ≤ E := by
      have := hts (now, st) (by simp)
      simpa using this
    have hr := @increment_of_live s (opts.keyGenerator c) opts.windowMs now
      { count := cnt, resetTime := E } hs hnow
    have hspec := runMiddleware_spec opts c now st s hr
    have hfs : (runMiddleware opts c now st s).finalStore =
        setKey s (opts.keyGenerator c) { count := cnt + 1, resetTime := E } := by
      by_cases hadm : opts.maxRequests < cnt + 1
      · exact (hspec.2.2.2.2.2.2.1 (by simpa using hadm)).1
      · have h8 := hspec.2.2.2.2.2.2.2 (by simpa using Int.not_lt.mp hadm)
        rw [h8.1, settle_no_flags h1 h2]
    rw [runRounds_cons, hfs]
    have hrec := ih (setKey s (opts.keyGenerator c)
        { count := cnt + 1, resetTime := E }) (cnt + 1) E
      (setKey_same _ _ _)
      (fun t ht => hts t (List.mem_cons_of_mem _ ht))
    rw [hrec]
    congr 1
    simp only [List.length_cons]
    push_cast
    ring_nf

lemma roundsAdmitted_of_reset (opts : RateLimitOptions) (c : RequestCtx)
    (hs : opts.skipSuccessfulRequests = true) (hmax : 1 ≤ opts.maxRequests) :
    ∀ (ts : List (Nat × Nat)) (s : Store),
      (∀ t ∈ ts, 200 ≤ t.2 ∧ t.2 < 400) →
      (s (opts.keyGenerator c) = none ∨
        ∃ E, s (opts.keyGenerator c) = some { count := 0, resetTime := E }) →
      roundsAdmitted opts c ts s = true := by
  intro ts
  induction ts with
  | nil =>
    intro s _ _
    rfl
  | cons head tail ih =>
    intro s hts hinv
    obtain ⟨now, st⟩ := head
    have hst : 200 ≤ st ∧ st < 400 := by
      have := hts (now, st) (by simp)
      simpa using this
    obtain ⟨rt, hr⟩ : ∃ rt,
        increment s (opts.keyGenerator c) opts.windowMs now =
          ({ count := 1, resetTime := rt },
           setKey s (opts.keyGenerator c) { count := 1, resetTime := rt }) := by
      rcases hinv with hnone | ⟨E, hsome⟩
      · exact ⟨now + opts.windowMs, increment_of_none hnone⟩
      · by_cases hlive : now ≤ E
        · refine ⟨E, ?_⟩
          simpa using @increment_of_live s (opts.keyGenerator c) opts.windowMs
            now { count := 0, resetTime := E } hsome hlive
        · exact ⟨now + opts.windowMs,
            increment_of_expired hsome (by show E < now; omega)⟩
    have hspec := runMiddleware_spec opts c now st s hr
    have hadm : (runMiddleware opts c now st s).admitted = true :=
      hspec.2.1.mpr (by simpa using hmax)
    have h8 := hspec.2.2.2.2.2.2.2 (by simpa using hmax)
    have hfs : (runMiddleware opts c now st s).finalStore =
        setKey (setKey s (opts.keyGenerator c) { count := 1, resetTime := rt })
          (opts.keyGenerator c) { count := 0, resetTime := rt } := by
      rw [h8.1, settle_success hs hst.1 hst.2]
      norm_num
    rw [roundsAdmitted_cons, hadm, Bool.true_and]
    exact ih _ (fun t ht => hts t (List.mem_cons_of_mem _ ht))
      (Or.inr ⟨rt, by rw [hfs]; exact setKey_same _ _ _⟩)

/-- A sample request context used by the concrete witnesses: no
`x-forwarded-for`, direct `x-real-ip` of `1.2.3.4`, unauthenticated. -/
def ctxSample : RequestCtx :=
  { xForwardedFor := none, xRealIp := some "1.2.3.4", userId := none }

/-- The sample context with an authenticated user id. -/
def ctxUser : RequestCtx :=
  { xForwardedFor := none, xRealIp := some "1.2.3.4", userId := some "u1" }

/-- Claim C2 counterexample: the claim says a record is expired already at the
boundary instant `now = windowEnd`, so `increment` should open a fresh window
(`count = 1`).  The code only expires strictly after (`Date.now() > resetTime`):
with record `{count := 5, resetTime := 100}` and `now = 100` (where
`now ≥ windowEnd` holds), `increment` returns count 6, not a fresh record
`{count := 1, resetTime := 150}`. -/
theorem increment_boundary_not_expired_ce :
    (increment (setKey emptyStore "k" { count := 5, resetTime := 100 })
        "k" 50 100).1 = { count := 6, resetTime := 100 } ∧
    (100 : Nat) ≥ 100 ∧
    (increment (setKey emptyStore "k" { count := 5, resetTime := 100 })
        "k" 50 100).1 ≠ { count := 1, resetTime := 150 } := by
  refine ⟨by decide, by decide, by decide⟩

/-- Claim C2 (amended): `increment` opens a fresh window
(`count = 1`, `resetTime = now + windowMs`) exactly when no record exists or
the existing record is expired, where a record is expired once
`now > windowEnd` (strictly after; at the boundary `now = windowEnd` the
record is still live and is incremented); otherwise it increments the existing
record's count by 1.  After the reported reset time has elapsed
(`now > resetAtMs`), the next request for the key is treated as the first of a
new window: count 1 and (for a policy admitting at least one request)
admitted. -/
theorem increment_window_semantics (s : Store) (key : String) (w now : Nat) :
    (s key = none →
      increment s key w now =
        ({ count := 1, resetTime := now + w },
         setKey s key { count := 1, resetTime := now + w })) ∧
    (∀ r, s key = some r → r.resetTime < now →
      increment s key w now =
        ({ count := 1, resetTime := now + w },
         setKey s key { count := 1, resetTime := now + w })) ∧
    (∀ r, s key = some r → now ≤ r.resetTime →
      increment s key w now =
        ({ count := r.count + 1, resetTime := r.resetTime },
         setKey s key { count := r.count + 1, resetTime := r.resetTime })) ∧
    (∀ (opts : RateLimitOptions) (c : RequestCtx) (st : Nat) r,
      s (opts.keyGenerator c) = some r → r.resetTime < now →
      1 ≤ opts.maxRequests →
      (runMiddleware opts c now st s).record =
        { count := 1, resetTime := now + opts.windowMs } ∧
      (runMiddleware opts c now st s).admitted = true) := by
  refine ⟨fun h => increment_of_none h,
    fun r h he => increment_of_expired h he,
    fun r h hl => increment_of_live h hl, ?_⟩
  intro opts c st r h he hmax
  have hr := @increment_of_expired s (opts.keyGenerator c) opts.windowMs now
    r h he
  have hspec := runMiddleware_spec opts c now st s hr
  exact ⟨hspec.1, hspec.2.1.mpr (by simpa using hmax)⟩

/-- Claim C2 witness: with a live record `{count := 2, resetTime := 100}` at
time 100 the count is bumped to 3; with an expired record at time 101 the
window is reopened and the request admitted under the default policy. -/
theorem increment_window_semantics_wit :
    increment (setKey emptyStore "k" { count := 2, resetTime := 100 })
        "k" 50 100 =
      ({ count := 3, resetTime := 100 },
       setKey (setKey emptyStore "k" { count := 2, resetTime := 100 })
         "k" { count := 3, resetTime := 100 }) ∧
    (runMiddleware rateLimiterOptions ctxSample 101 200
      (setKey emptyStore (rateLimiterOptions.keyGenerator ctxSample)
        { count := 100, resetTime := 100 })).admitted = true := by
  constructor
  · have := (increment_window_semantics
        (setKey emptyStore "k" { count := 2, resetTime := 100 })
        "k" 50 100).2.2.1 { count := 2, resetTime := 100 } (by decide) (by decide)
    simpa using this
  · exact ((increment_window_semantics
        (setKey emptyStore (rateLimiterOptions.keyGenerator ctxSample)
          { count := 100, resetTime := 100 })
        (rateLimiterOptions.keyGenerator ctxSample) 0 101).2.2.2
      rateLimiterOptions ctxSample 200 { count := 100, resetTime := 100 }
      (setKey_same _ _ _) (by decide) (by decide)).2

/-- Claim C7 counterexample: the claim says the sweep removes every record
with `windowEnd ≤ now`; at the boundary `resetTime = now = 5` the code
(`now > record.resetTime`) keeps the record. -/
theorem cleanup_boundary_ce :
    cleanup (setKey emptyStore "k" { count := 1, resetTime := 5 }) 5 "k" =
      some { count := 1, resetTime := 5 } ∧
    ({ count := 1, resetTime := 5 } : RateLimitRecord).resetTime ≤ 5 := by
  refine ⟨by decide, by decide⟩

/-- Claim C7 (amended): the cleanup sweep at time `now` removes exactly those
records whose window end is strictly before `now` (`windowEnd < now`); every
record with `windowEnd ≥ now` — including one exactly at the boundary —
remains in the store unchanged (same count and resetTime), and a record is
never removed before its window has elapsed. -/
theorem cleanup_removes_strictly_expired (s : Store) (now : Nat) (k : String) :
    (∀ r, s k = some r → r.resetTime < now → cleanup s now k = none) ∧
    (∀ r, s k = some r → now ≤ r.resetTime → cleanup s now k = some r) ∧
    (s k = none → cleanup s now k = none) ∧
    (∀ r, s k = some r → cleanup s now k = none → r.resetTime < now) := by
  refine ⟨?_, ?_, ?_, ?_⟩
  · intro r h he
    simp [cleanup, h, he]
  · intro r h hl
    simp [cleanup, h, Nat.not_lt.mpr hl]
  · intro h
    simp [cleanup, h]
  · intro r h hc
    by_cases he : r.resetTime < now
    · exact he
    · simp [cleanup, h, he] at hc

/-- Claim C7 witness: sweeping at time 6 removes a record with window end 5,
and sweeping at time 4 leaves it untouched. -/
theorem cleanup_removes_strictly_expired_wit :
    cleanup (setKey emptyStore "k" { count := 1, resetTime := 5 }) 6 "k" =
      none ∧
    cleanup (setKey emptyStore "k" { count := 1, resetTime := 5 }) 4 "k" =
      some { count := 1, resetTime := 5 } := by
  constructor
  · exact (cleanup_removes_strictly_expired
        (setKey emptyStore "k" { count := 1, resetTime := 5 }) 6 "k").1
      { count := 1, resetTime := 5 } (by decide) (by decide)
  · exact (cleanup_removes_strictly_expired
        (setKey emptyStore "k" { count := 1, resetTime := 5 }) 4 "k").2.1
      { count := 1, resetTime := 5 } (by decide) (by decide)

/-- Claim C5 counterexample: the claim says the settle-time decrement does
nothing when no record for the key exists in the store.  In the code the
skip-accounting decrements the record object captured at increment time and
writes it back unconditionally: after an admit at t=0 (window 100 ms) whose
record is swept away by cleanup at t=101, the settle phase of a successful
response still writes `{count := 0, resetTime := 100}` back into the store
instead of leaving the key absent. -/
theorem settle_decrement_unconditional_ce :
    cleanup (increment emptyStore "k" 100 0).2 101 "k" = none ∧
    settle strictRateLimiterOptions "k" (increment emptyStore "k" 100 0).1 200
        (cleanup (increment emptyStore "k" 100 0).2 101) "k" =
      some { count := 0, resetTime := 100 } := by
  refine ⟨by decide, by decide⟩

/-- Claim C5 (amended): the settle-time decrement does not consult the store:
whenever a skip flag matches the response status it writes back the record
captured at admit time with its count reduced by 1 (re-creating the entry even
if it was deleted or expired meanwhile); the two skip branches are mutually
exclusive, so a settle decrements at most once; and since the captured record
comes from `increment` with `count ≥ 1`, a settle never drives a
non-negative store below 0. -/
theorem settle_decrement_behavior (opts : RateLimitOptions) (key : String)
    (r : RateLimitRecord) (st : Nat) (s : Store) :
    (settle opts key r st s = s ∨
      settle opts key r st s =
        setKey s key { count := r.count - 1, resetTime := r.resetTime }) ∧
    (1 ≤ r.count → (∀ k r0, s k = some r0 → 0 ≤ r0.count) →
      ∀ k r1, settle opts key r st s k = some r1 → 0 ≤ r1.count) := by
  refine ⟨settle_cases opts key r st s, ?_⟩
  intro hr hnn k r1 hk
  rcases settle_cases opts key r st s with he | he
  · rw [he] at hk
    exact hnn k r1 hk
  · rw [he] at hk
    by_cases hkk : k = key
    · subst hkk
      rw [setKey_same] at hk
      cases hk
      simp only []
      omega
    · rw [setKey_other _ _ _ _ hkk] at hk
      exact hnn k r1 hk

/-- Claim C5 witness: a settle with the success-skip flag on a store holding
`{count := 2, resetTime := 50}` keeps all counts non-negative. -/
theorem settle_decrement_behavior_wit :
    ∀ k r1,
      settle strictRateLimiterOptions "k" { count := 2, resetTime := 50 } 200
        (setKey emptyStore "k" { count := 2, resetTime := 50 }) k = some r1 →
      0 ≤ r1.count := by
  exact (settle_decrement_behavior strictRateLimiterOptions "k"
      { count := 2, resetTime := 50 } 200
      (setKey emptyStore "k" { count := 2, resetTime := 50 })).2
    (by decide)
    (by
      intro k r0 h
      by_cases hk : k = "k"
      · subst hk
        rw [setKey_same] at h
        cases h
        decide
      · rw [setKey_other _ _ _ _ hk] at h
        cases h)

/-- Claim C3 counterexample: the claim says default keys are namespaced by
policy name so two distinct policies never share a key.  The default key
generator is the same `rate_limit:<ip>` string for every policy: the default
limiter (max 100) and the strict limiter (max 5) map the same caller to the
same key in the shared store. -/
theorem default_key_no_policy_namespace_ce :
    rateLimiterOptions.keyGenerator ctxSample = "rate_limit:1.2.3.4" ∧
    strictRateLimiterOptions.keyGenerator ctxSample = "rate_limit:1.2.3.4" ∧
    rateLimiterOptions.maxRequests ≠ strictRateLimiterOptions.maxRequests := by
  refine ⟨by decide, by decide, by decide⟩

/-- Claim C3 (amended): the default key generator is a pure total function
returning `rate_limit:` followed by the first hop of the `x-forwarded-for`
header when that header is present and non-empty, otherwise by the `x-real-ip`
header when present and non-empty, otherwise by the sentinel `unknown`.  It is
not namespaced by policy name: every policy using the default generator (the
default, strict, and read limiters) maps the same caller to the same key in
the shared store. -/
theorem default_key_generator_shape (c : RequestCtx) :
    (∀ f, c.xForwardedFor = some f → jsTruthy (some f) = true →
      defaultKeyGenerator c =
        "rate_limit:" ++ ((f.splitOn ",").headD "").trim) ∧
    (jsTruthy c.xForwardedFor = false → ∀ ip, c.xRealIp = some ip →
      jsTruthy (some ip) = true →
      defaultKeyGenerator c = "rate_limit:" ++ ip) ∧
    (jsTruthy c.xForwardedFor = false → jsTruthy c.xRealIp = false →
      defaultKeyGenerator c = "rate_limit:" ++ "unknown") ∧
    (∀ c' : RequestCtx,
      rateLimiterOptions.keyGenerator c' =
        strictRateLimiterOptions.keyGenerator c' ∧
      rateLimiterOptions.keyGenerator c' =
        readRateLimiterOptions.keyGenerator c') := by
  refine ⟨?_, ?_, ?_, fun c' => ⟨rfl, rfl⟩⟩
  · intro f hf ht
    simp [defaultKeyGenerator, clientIp, hf, ht]
  · intro hff ip hip ht
    simp [defaultKeyGenerator, clientIp, jsOr, hff, hip, ht]
  · intro hff hri
    simp [defaultKeyGenerator, clientIp, jsOr, hff, hri]

/-- Claim C3 witness: concrete keys for a forwarded request, a direct request,
and an anonymous request. -/
theorem default_key_generator_shape_wit :
    defaultKeyGenerator
        { xForwardedFor := some "10.0.0.7, 10.0.0.8", xRealIp := none,
          userId := none } =
      "rate_limit:" ++ (("10.0.0.7, 10.0.0.8".splitOn ",").headD "").trim ∧
    defaultKeyGenerator ctxSample = "rate_limit:" ++ "1.2.3.4" ∧
    defaultKeyGenerator
        { xForwardedFor := none, xRealIp := none, userId := none } =
      "rate_limit:" ++ "unknown" := by
  refine ⟨?_, ?_, ?_⟩
  · exact (default_key_generator_shape
        { xForwardedFor := some "10.0.0.7, 10.0.0.8", xRealIp := none,
          userId := none }).1 "10.0.0.7, 10.0.0.8" rfl (by decide)
  · exact (default_key_generator_shape ctxSample).2.1 (by decide) "1.2.3.4"
      rfl (by decide)
  · exact (default_key_generator_shape
        { xForwardedFor := none, xRealIp := none, userId := none }).2.2.1
      (by decide) (by decide)

/-- Claim C1: with the counter record returned by the store's increment for
the request's key: the request is admitted iff `record.count ≤ maxRequests`;
the reported remaining quota is `max(0, maxRequests - record.count)`; the
reported reset is the record's window end (in epoch seconds, rounded up); on
rejection `retryAfter = ceil((windowEnd - now)/1000)`.  Within a single window
(no skip accounting), requests only grow the counter one by one, so the Nth
request sees count N: it reports `remaining = max(0, maxRequests - N)` and is
admitted iff `N ≤ maxRequests` — in particular the `(maxRequests+1)`th request
of a window is rejected. -/
theorem admit_decision_correct (opts : RateLimitOptions) (c : RequestCtx)
    (now st : Nat) (s : Store) :
    ((runMiddleware opts c now st s).record =
      (increment s (opts.keyGenerator c) opts.windowMs now).1) ∧
    ((runMiddleware opts c now st s).admitted = true ↔
      (increment s (opts.keyGenerator c) opts.windowMs now).1.count ≤
        opts.maxRequests) ∧
    ((runMiddleware opts c now st s).remainingHdr =
      max 0 (opts.maxRequests -
        (increment s (opts.keyGenerator c) opts.windowMs now).1.count)) ∧
    ((runMiddleware opts c now st s).resetHdr =
      ((increment s (opts.keyGenerator c) opts.windowMs now).1.resetTime + 999)
        / 1000) ∧
    ((runMiddleware opts c now st s).admitted = false →
      (runMiddleware opts c now st s).retryAfterHdr =
        some (ceilDiv1000
          (((increment s (opts.keyGenerator c) opts.windowMs now).1.resetTime
            : Int) - (now : Int)))) ∧
    (opts.skipSuccessfulRequests = false → opts.skipFailedRequests = false →
      ∀ (ts : List (Nat × Nat)) (s0 : Store) (cnt : Int) (E : Nat),
        s0 (opts.keyGenerator c) = some { count := cnt, resetTime := E } →
        (∀ t ∈ ts, t.1 ≤ E) →
        runRounds opts c ts s0 (opts.keyGenerator c) =
          some { count := cnt + ts.length, resetTime := E }) ∧
    (∀ (cnt : Int) (E : Nat) (s0 : Store),
      s0 (opts.keyGenerator c) = some { count := cnt, resetTime := E } →
      now ≤ E →
      ((runMiddleware opts c now st s0).admitted = true ↔
        cnt + 1 ≤ opts.maxRequests) ∧
      (runMiddleware opts c now st s0).remainingHdr =
        max 0 (opts.maxRequests - (cnt + 1))) := by
  have hr : increment s (opts.keyGenerator c) opts.windowMs now =
      ((increment s (opts.keyGenerator c) opts.windowMs now).1,
       (increment s (opts.keyGenerator c) opts.windowMs now).2) := rfl
  have hspec := runMiddleware_spec opts c now st s hr
  refine ⟨hspec.1, hspec.2.1, hspec.2.2.2.1, hspec.2.2.2.2.1, ?_, ?_, ?_⟩
  · intro hrej
    have hlt : opts.maxRequests <
        (increment s (opts.keyGenerator c) opts.windowMs now).1.count := by
      by_contra hle
      rw [hspec.2.1.mpr (Int.not_lt.mp hle)] at hrej
      cases hrej
    exact (hspec.2.2.2.2.2.2.1 hlt).2.2.1
  · intro h1 h2 ts s0 cnt E hs0 hts
    exact runRounds_counts opts c h1 h2 ts s0 cnt E hs0 hts
  · intro cnt E s0 hs0 hnowE
    have hr0 := @increment_of_live s0 (opts.keyGenerator c) opts.windowMs now
      { count := cnt, resetTime := E } hs0 hnowE
    have hspec0 := runMiddleware_spec opts c now st s0 hr0
    constructor
    · simpa using hspec0.2.1
    · simpa using hspec0.2.2.2.1

/-- Claim C1 witness: under the strict policy (max 5) on a fresh store, six
in-window requests at t=0..5 leave the counter at 6, and the 6th request
(count 6 after increment) is rejected with `remaining = 0` while the 3rd
(count 3) was admitted with `remaining = 2`.  The skip flags are off in the
exercised policy (the read limiter). -/
theorem admit_decision_correct_wit :
    runRounds readRateLimiterOptions ctxSample
        [(1, 200), (2, 200), (3, 200)]
        (setKey emptyStore (readRateLimiterOptions.keyGenerator ctxSample)
          { count := 0, resetTime := 3600000 })
        (readRateLimiterOptions.keyGenerator ctxSample) =
      some { count := 0 + (3 : Nat), resetTime := 3600000 } ∧
    ((runMiddleware readRateLimiterOptions ctxSample 4 200
        (setKey emptyStore (readRateLimiterOptions.keyGenerator ctxSample)
          { count := 2, resetTime := 3600000 })).admitted = true ↔
      (2 : Int) + 1 ≤ readRateLimiterOptions.maxRequests) ∧
    (runMiddleware readRateLimiterOptions ctxSample 4 200
        (setKey emptyStore (readRateLimiterOptions.keyGenerator ctxSample)
          { count := 2, resetTime := 3600000 })).remainingHdr =
      max 0 (readRateLimiterOptions.maxRequests - ((2 : Int) + 1)) := by
  refine ⟨?_, ?_, ?_⟩
  · exact (admit_decision_correct readRateLimiterOptions ctxSample 0 200
        emptyStore).2.2.2.2.2.1 rfl rfl [(1, 200), (2, 200), (3, 200)] _ 0
      3600000 (setKey_same _ _ _) (by decide)
  · exact ((admit_decision_correct readRateLimiterOptions ctxSample 4 200
        emptyStore).2.2.2.2.2.2 2 3600000 _ (setKey_same _ _ _)
      (by decide)).1
  · exact ((admit_decision_correct readRateLimiterOptions ctxSample 4 200
        emptyStore).2.2.2.2.2.2 2 3600000 _ (setKey_same _ _ _)
      (by decide)).2

/-- Claim C4: under a policy with success-skip accounting
(`skipSuccessfulRequests`), an admitted request settled with a successful
status leaves the key's stored count unchanged net of the increment-decrement
pair (same count and window end as before the request); consequently any
number of successive successful calls starting from a fresh key are all
admitted — repeated successful calls never exhaust the quota. -/
theorem skip_success_preserves_quota (opts : RateLimitOptions) (c : RequestCtx)
    (hs : opts.skipSuccessfulRequests = true) :
    (∀ (s : Store) (cnt : Int) (E now st : Nat),
      s (opts.keyGenerator c) = some { count := cnt, resetTime := E } →
      now ≤ E → 200 ≤ st → st < 400 → cnt + 1 ≤ opts.maxRequests →
      (runMiddleware opts c now st s).admitted = true ∧
      (runMiddleware opts c now st s).finalStore (opts.keyGenerator c) =
        some { count := cnt, resetTime := E }) ∧
    (1 ≤ opts.maxRequests →
      ∀ (ts : List (Nat × Nat)) (s : Store),
        (∀ t ∈ ts, 200 ≤ t.2 ∧ t.2 < 400) →
        s (opts.keyGenerator c) = none →
        roundsAdmitted opts c ts s = true) := by
  constructor
  · intro s cnt E now st hsk hnowE hlo hhi hadm
    have hr := @increment_of_live s (opts.keyGenerator c) opts.windowMs now
      { count := cnt, resetTime := E } hsk hnowE
    have hspec := runMiddleware_spec opts c now st s hr
    refine ⟨hspec.2.1.mpr (by simpa using hadm), ?_⟩
    have h8 := hspec.2.2.2.2.2.2.2 (by simpa using hadm)
    rw [h8.1, settle_success hs hlo hhi, setKey_same]
    simp
  · intro hmax ts s hts hnone
    exact roundsAdmitted_of_reset opts c hs hmax ts s hts (Or.inl hnone)

/-- Claim C4 witness: under the strict auth limiter (max 5, success-skip), a
round trip on a live record with count 3 restores count 3, and four successful
logins in a row from a fresh store are all admitted. -/
theorem skip_success_preserves_quota_wit :
    (runMiddleware strictRateLimiterOptions ctxSample 10 204
        (setKey emptyStore (strictRateLimiterOptions.keyGenerator ctxSample)
          { count := 3, resetTime := 900000 })).finalStore
      (strictRateLimiterOptions.keyGenerator ctxSample) =
      some { count := 3, resetTime := 900000 } ∧
    roundsAdmitted strictRateLimiterOptions ctxSample
      [(0, 200), (1, 200), (2, 200), (3, 200)] emptyStore = true := by
  constructor
  · exact ((skip_success_preserves_quota strictRateLimiterOptions ctxSample
        rfl).1 _ 3 900000 10 204 (setKey_same _ _ _) (by decide) (by decide)
      (by decide) (by decide)).2
  · exact (skip_success_preserves_quota strictRateLimiterOptions ctxSample
        rfl).2 (by decide) [(0, 200), (1, 200), (2, 200), (3, 200)]
      emptyStore (by decide) rfl

lemma increment_sets_key (s : Store) (key : String) (w now : Nat) :
    (increment s key w now).2 key = some (increment s key w now).1 := by
  rcases hg : (storeGetD s key now).1 with _ | ex <;>
    simp [increment, hg, setKey]

lemma storeGetD_some_facts {s : Store} {key : String} {now : Nat}
    {r : RateLimitRecord} (h : (storeGetD s key now).1 = some r) :
    s key = some r ∧ now ≤ r.resetTime := by
  rcases hse : s key with _ | r0
  · rw [storeGetD_of_none hse] at h
    cases h
  · by_cases he : r0.resetTime < now
    · rw [storeGetD_of_expired hse he] at h
      cases h
    · rw [storeGetD_of_live hse (Nat.not_lt.mp he)] at h
      cases h
      exact ⟨rfl, Nat.not_lt.mp he⟩

/-- Claim C6: the limiter sets the four `X-RateLimit-*` headers on every
evaluated request (limit, remaining, reset in epoch seconds, window in ms);
it short-circuits with status 429 exactly when the incremented count exceeds
`maxRequests`, and then additionally sets `Retry-After` and returns the JSON
body `{error: "Too Many Requests", message, code: "RATE_LIMIT_EXCEEDED",
retryAfter, limit, window}`. -/
theorem response_headers_and_rejection (opts : RateLimitOptions)
    (c : RequestCtx) (now st : Nat) (s : Store) :
    ((runMiddleware opts c now st s).statusOut = some 429 ↔
      opts.maxRequests < (runMiddleware opts c now st s).record.count) ∧
    ((runMiddleware opts c now st s).admitted = false →
      (runMiddleware opts c now st s).headerList =
        [("X-RateLimit-Limit", toString opts.maxRequests),
         ("X-RateLimit-Remaining",
          toString (runMiddleware opts c now st s).remainingHdr),
         ("X-RateLimit-Reset",
          toString (runMiddleware opts c now st s).resetHdr),
         ("X-RateLimit-Window", toString opts.windowMs),
         ("Retry-After",
          toString (ceilDiv1000
            (((runMiddleware opts c now st s).record.resetTime : Int) -
              (now : Int))))] ∧
      (runMiddleware opts c now st s).body = some
        { error := "Too Many Requests"
          message := opts.message
          code := "RATE_LIMIT_EXCEEDED"
          retryAfter := ceilDiv1000
            (((runMiddleware opts c now st s).record.resetTime : Int) -
              (now : Int))
          limit := opts.maxRequests
          window := opts.windowMs }) ∧
    ((runMiddleware opts c now st s).admitted = true →
      (runMiddleware opts c now st s).headerList =
        [("X-RateLimit-Limit", toString opts.maxRequests),
         ("X-RateLimit-Remaining",
          toString (runMiddleware opts c now st s).remainingHdr),
         ("X-RateLimit-Reset",
          toString (runMiddleware opts c now st s).resetHdr),
         ("X-RateLimit-Window", toString opts.windowMs)] ∧
      (runMiddleware opts c now st s).statusOut = none ∧
      (runMiddleware opts c now st s).body = none) := by
  have hr : increment s (opts.keyGenerator c) opts.windowMs now =
      ((increment s (opts.keyGenerator c) opts.windowMs now).1,
       (increment s (opts.keyGenerator c) opts.windowMs now).2) := rfl
  have hspec := runMiddleware_spec opts c now st s hr
  have hlist := runMiddleware_headerList opts c now st s hr
  by_cases hlt : opts.maxRequests <
      (increment s (opts.keyGenerator c) opts.windowMs now).1.count
  · have h7 := hspec.2.2.2.2.2.2.1 hlt
    refine ⟨?_, ?_, ?_⟩
    · simp [h7.2.1, hspec.1, hlt]
    · intro _
      constructor
      · rw [hlist, if_pos hlt, hspec.1, hspec.2.2.2.1, hspec.2.2.2.2.1]
        rfl
      · rw [hspec.1]
        exact h7.2.2.2
    · intro hadm
      have htrue := hspec.2.1.mp hadm
      exact absurd htrue (Int.not_le.mpr hlt)
  · have hle := Int.not_lt.mp hlt
    have h8 := hspec.2.2.2.2.2.2.2 hle
    refine ⟨?_, ?_, ?_⟩
    · simp [h8.2.1, hspec.1, hlt]
    · intro hrej
      have htrue := hspec.2.1.mpr hle
      rw [hrej] at htrue
      exact absurd htrue (by simp)
    · intro _
      refine ⟨?_, h8.2.1, h8.2.2.2⟩
      rw [hlist, if_neg hlt, hspec.2.2.2.1, hspec.2.2.2.2.1]
      rfl

/-- Claim C6 witness: the 6th request under the strict limiter (count 6 > 5)
returns status 429 with the rejection body, and the 1st request under the
default limiter returns no early status. -/
theorem response_headers_and_rejection_wit :
    (runMiddleware strictRateLimiterOptions ctxSample 0 200
        (setKey emptyStore (strictRateLimiterOptions.keyGenerator ctxSample)
          { count := 5, resetTime := 900000 })).body = some
      { error := "Too Many Requests"
        message := strictRateLimiterOptions.message
        code := "RATE_LIMIT_EXCEEDED"
        retryAfter := ceilDiv1000
          (((runMiddleware strictRateLimiterOptions ctxSample 0 200
              (setKey emptyStore
                (strictRateLimiterOptions.keyGenerator ctxSample)
                { count := 5, resetTime := 900000 })).record.resetTime : Int) -
            (0 : Int))
        limit := strictRateLimiterOptions.maxRequests
        window := strictRateLimiterOptions.windowMs } ∧
    (runMiddleware rateLimiterOptions ctxSample 0 200 emptyStore).statusOut =
      none := by
  constructor
  · exact ((response_headers_and_rejection strictRateLimiterOptions ctxSample
        0 200
        (setKey emptyStore (strictRateLimiterOptions.keyGenerator ctxSample)
          { count := 5, resetTime := 900000 })).2.1 (by decide)).2
  · exact ((response_headers_and_rejection rateLimiterOptions ctxSample 0 200
        emptyStore).2.2 (by decide)).2.1

/-- Claim C8: the four preconfigured limiters reproduce the spec's constants:
default 15 min / 100; strict (auth) 15 min / 5 with success-skip accounting;
read 60 min / 1000; upload 60 min / 10 with a key that incorporates the
authenticated user id when present and namespaces anonymous traffic under
`anonymous`. -/
theorem registry_policy_constants :
    rateLimiterOptions.windowMs = 15 * 60 * 1000 ∧
    rateLimiterOptions.maxRequests = 100 ∧
    strictRateLimiterOptions.windowMs = 15 * 60 * 1000 ∧
    strictRateLimiterOptions.maxRequests = 5 ∧
    strictRateLimiterOptions.skipSuccessfulRequests = true ∧
    readRateLimiterOptions.windowMs = 60 * 60 * 1000 ∧
    readRateLimiterOptions.maxRequests = 1000 ∧
    uploadRateLimiterOptions.windowMs = 60 * 60 * 1000 ∧
    uploadRateLimiterOptions.maxRequests = 10 ∧
    (∀ (c : RequestCtx) (u : String), c.userId = some u →
      jsTruthy (some u) = true →
      uploadRateLimiterOptions.keyGenerator c =
        "upload_limit:" ++ clientIp c ++ ":" ++ u) ∧
    (∀ c : RequestCtx, jsTruthy c.userId = false →
      uploadRateLimiterOptions.keyGenerator c =
        "upload_limit:" ++ clientIp c ++ ":" ++ "anonymous") := by
  refine ⟨rfl, rfl, rfl, rfl, rfl, rfl, rfl, rfl, rfl, ?_, ?_⟩
  · intro c u hu ht
    simp [uploadRateLimiterOptions, uploadKeyGenerator, jsOr, hu, ht]
  · intro c hf
    simp [uploadRateLimiterOptions, uploadKeyGenerator, jsOr, hf]

/-- Claim C8 witness: upload keys for an authenticated and an anonymous
caller (`ctxUser` is `ctxSample` with user id `u1`). -/
theorem registry_policy_constants_wit :
    uploadRateLimiterOptions.keyGenerator ctxUser =
      "upload_limit:" ++ clientIp ctxUser ++ ":" ++ "u1" ∧
    uploadRateLimiterOptions.keyGenerator ctxSample =
      "upload_limit:" ++ clientIp ctxSample ++ ":" ++ "anonymous" := by
  constructor
  · exact registry_policy_constants.2.2.2.2.2.2.2.2.2.1 ctxUser "u1" rfl
      (by decide)
  · exact registry_policy_constants.2.2.2.2.2.2.2.2.2.2 ctxSample (by decide)

/-- Claim C9: when the limiter rejects a request with 429 it returns before
the handler runs, so the outcome-based skip accounting never fires for that
request: the final store is exactly the post-increment store (for any skip
flags), the rejected request's increment stays recorded under its key, and
the middleware's result does not depend on the handler status at all. -/
theorem rejected_request_no_settle (opts : RateLimitOptions) (c : RequestCtx)
    (now st : Nat) (s : Store) :
    (runMiddleware opts c now st s).admitted = false →
    ((runMiddleware opts c now st s).finalStore =
        (increment s (opts.keyGenerator c) opts.windowMs now).2 ∧
      (runMiddleware opts c now st s).finalStore (opts.keyGenerator c) =
        some (increment s (opts.keyGenerator c) opts.windowMs now).1 ∧
      ∀ st' : Nat, runMiddleware opts c now st' s =
        runMiddleware opts c now st s) := by
  intro hrej
  have hr : increment s (opts.keyGenerator c) opts.windowMs now =
      ((increment s (opts.keyGenerator c) opts.windowMs now).1,
       (increment s (opts.keyGenerator c) opts.windowMs now).2) := rfl
  have hspec := runMiddleware_spec opts c now st s hr
  have hlt : opts.maxRequests <
      (increment s (opts.keyGenerator c) opts.windowMs now).1.count := by
    by_contra hnlt
    have htrue := hspec.2.1.mpr (Int.not_lt.mp hnlt)
    rw [hrej] at htrue
    exact Bool.false_ne_true htrue
  refine ⟨(hspec.2.2.2.2.2.2.1 hlt).1, ?_, ?_⟩
  · rw [(hspec.2.2.2.2.2.2.1 hlt).1]
    exact increment_sets_key s (opts.keyGenerator c) opts.windowMs now
  · intro st'
    simp [runMiddleware, hlt]

/-- Claim C9 witness: the 6th request under the strict limiter is rejected;
its increment stays in the store and the result ignores the handler status. -/
theorem rejected_request_no_settle_wit :
    (runMiddleware strictRateLimiterOptions ctxSample 0 200
        (setKey emptyStore (strictRateLimiterOptions.keyGenerator ctxSample)
          { count := 5, resetTime := 900000 })).finalStore
      (strictRateLimiterOptions.keyGenerator ctxSample) =
      some (increment
        (setKey emptyStore (strictRateLimiterOptions.keyGenerator ctxSample)
          { count := 5, resetTime := 900000 })
        (strictRateLimiterOptions.keyGenerator ctxSample)
        strictRateLimiterOptions.windowMs 0).1 ∧
    runMiddleware strictRateLimiterOptions ctxSample 0 500
        (setKey emptyStore (strictRateLimiterOptions.keyGenerator ctxSample)
          { count := 5, resetTime := 900000 }) =
      runMiddleware strictRateLimiterOptions ctxSample 0 200
        (setKey emptyStore (strictRateLimiterOptions.keyGenerator ctxSample)
          { count := 5, resetTime := 900000 }) := by
  have h := rejected_request_no_settle strictRateLimiterOptions ctxSample 0 200
    (setKey emptyStore (strictRateLimiterOptions.keyGenerator ctxSample)
      { count := 5, resetTime := 900000 }) (by decide)
  exact ⟨h.2.1, h.2.2 500⟩

/-- Claim C10 counterexample: the claim says every record returned by the
store's get has `count ≥ 1`.  After an admitted and successfully settled
request under the strict (success-skip) limiter, the store holds a live
record with count 0, and a subsequent get returns it: get can return
`count = 0`. -/
theorem store_get_count_zero_ce :
    (storeGetD
        (runMiddleware strictRateLimiterOptions ctxSample 0 200
          emptyStore).finalStore
        "rate_limit:1.2.3.4" 1).1 =
      some { count := 0, resetTime := 900000 } ∧
    ¬ (1 ≤ (0 : Int)) := by
  refine ⟨by decide, by decide⟩

/-- Claim C10 (amended): no caller ever observes a record whose reset time is
strictly in the past: a record returned by get satisfies
`resetTime ≥ now` (get deletes and returns absent whenever `now` is strictly
past `resetTime`), and a record returned by increment satisfies
`resetTime ≥ now`; increment returns `count ≥ 1` whenever the stored counts
are non-negative (always `= 1` with `resetTime = now + windowMs` on a fresh
key), but get itself can return a record with `count = 0` after skip
accounting. -/
theorem store_read_invariants (s : Store) (key : String) (w now : Nat) :
    (∀ (r : RateLimitRecord) (s' : Store),
      storeGetD s key now = (some r, s') → now ≤ r.resetTime) ∧
    now ≤ (increment s key w now).1.resetTime ∧
    ((∀ k r, s k = some r → 0 ≤ r.count) →
      1 ≤ (increment s key w now).1.count) ∧
    (s key = none →
      (increment s key w now).1 = { count := 1, resetTime := now + w }) := by
  refine ⟨?_, ?_, ?_, ?_⟩
  · intro r s' h
    exact (storeGetD_some_facts (by rw [h])).2
  · rcases hg : (storeGetD s key now).1 with _ | ex
    · have he : (increment s key w now).1 =
          { count := 1, resetTime := now + w } := by
        simp [increment, hg]
      rw [he]
      exact Nat.le_add_right _ _
    · have hf := storeGetD_some_facts hg
      have he : (increment s key w now).1 =
          { count := ex.count + 1, resetTime := ex.resetTime } := by
        simp [increment, hg]
      rw [he]
      exact hf.2
  · intro hnn
    rcases hg : (storeGetD s key now).1 with _ | ex
    · have he : (increment s key w now).1 =
          { count := 1, resetTime := now + w } := by
        simp [increment, hg]
      rw [he]
    · have hf := storeGetD_some_facts hg
      have he : (increment s key w now).1 =
          { count := ex.count + 1, resetTime := ex.resetTime } := by
        simp [increment, hg]
      rw [he]
      have := hnn key ex hf.1
      simp only []
      omega
  · intro h
    rw [increment_of_none h]

/-- Claim C10 witness: incrementing a store holding `{count := 2,
resetTime := 50}` at time 10 yields a record with count at least 1 and
reset time at least 10. -/
theorem store_read_invariants_wit :
    1 ≤ (increment (setKey emptyStore "k" { count := 2, resetTime := 50 })
        "k" 100 10).1.count ∧
    10 ≤ (increment (setKey emptyStore "k" { count := 2, resetTime := 50 })
        "k" 100 10).1.resetTime := by
  constructor
  · exact (store_read_invariants
        (setKey emptyStore "k" { count := 2, resetTime := 50 })
        "k" 100 10).2.2.1
      (by
        intro k r h
        by_cases hk : k = "k"
        · subst hk
          rw [setKey_same] at h
          cases h
          decide
        · rw [setKey_other _ _ _ _ hk] at h
          cases h)
  · exact (store_read_invariants
        (setKey emptyStore "k" { count := 2, resetTime := 50 })
        "k" 100 10).2.1
